import Mathlib

/-!
Shallow embedding of the snapshot/delta storage engine of the
NAGD-spell-inventory repository (src/delta_storage.py and the delta
functions of src/generate_spell_page.py).

Python dictionaries are modelled as association lists (`List (String × _)`),
`dict.get(k, default)` as `(getEntry m k).getD default`, Python `set(...)`
key unions as `dedupStr`, and machine-independent Python integers as `Int`.
File I/O is made explicit: functions that load from disk take the loaded
value (or an abstract store `String → Option _`) as a parameter, and
`datetime.now().isoformat()` is passed in as an explicit `timestamp`
argument.  Dates parsed with `strptime` are abstracted as day numbers
(`Int`), carried alongside their `YYYY-MM-DD` strings.
-/

instance {ε α : Type} [DecidableEq ε] [DecidableEq α] : DecidableEq (Except ε α) := fun x y =>
  match x, y with
  | .error a, .error b =>
    if h : a = b then isTrue (by rw [h]) else isFalse (by intro hc; cases hc; exact h rfl)
  | .error _, .ok _ => isFalse (by intro hc; cases hc)
  | .ok _, .error _ => isFalse (by intro hc; cases hc)
  | .ok a, .ok b =>
    if h : a = b then isTrue (by rw [h]) else isFalse (by intro hc; cases hc; exact h rfl)

/-- Lookup in an association list, modelling Python `dict.get`. -/
def getEntry {α : Type} : List (String × α) → String → Option α
  | [], _ => none
  | (a, v) :: t, k => if a = k then some v else getEntry t k

/-- Update or insert a key, modelling Python `d[k] = v`. -/
def setk {α : Type} : List (String × α) → String → α → List (String × α)
  | [], k, v => [(k, v)]
  | (a, w) :: t, k, v => if a = k then (k, v) :: t else (a, w) :: setk t k v

/-- Keys of an association list. -/
def keys {α : Type} (m : List (String × α)) : List String := m.map (fun p => p.1)

/-- Deduplicate a key list, modelling Python `set(keysA + keysB)` iteration
(the source only ever uses the resulting set for iteration, so order is
irrelevant). -/
def dedupStr : List String → List String
  | [] => []
  | a :: t => let r := dedupStr t; if a ∈ r then r else a :: r

/-- Per-entity scalar input record as produced by `parse_character_data`;
`d.get('level', 0)` etc. are total fields here, with `emptyChar` standing
for the `{}` returned when an entity is absent from one side. -/
structure CharData where
  level : Int
  aa_unspent : Int
  aa_spent : Int
  hp_max_total : Int
  class_name : String
deriving Repr, DecidableEq

def emptyChar : CharData :=
  { level := 0, aa_unspent := 0, aa_spent := 0, hp_max_total := 0, class_name := "" }

abbrev CharMap := List (String × CharData)

/-- One entry of `char_deltas` as built by `compare_character_data`
(src/generate_spell_page.py lines 805-819) and `compare_delta_to_delta`
(src/delta_storage.py lines 665-679). -/
structure CharDelta where
  name : String
  level_change : Int
  aa_total_change : Int
  hp_change : Int
  current_level : Int
  previous_level : Int
  current_aa_total : Int
  previous_aa_total : Int
  current_hp : Int
  previous_hp : Int
  class_name : String
  is_new : Bool
  is_deleted : Bool
deriving Repr, DecidableEq

/-- The `is_deleted` detection of `compare_character_data`
(src/generate_spell_page.py line 803): absent from current data, or level
dropped to 0 from a positive previous level. -/
def charIsDeleted (current_data previous_data : CharMap) (n : String) : Bool :=
  (getEntry current_data n).isNone ||
    (decide (((getEntry current_data n).getD emptyChar).level = 0) &&
      decide (0 < ((getEntry previous_data n).getD emptyChar).level))

/-- The `delta` record built for one character by `compare_character_data`
(src/generate_spell_page.py lines 805-819). -/
def charDeltaBody (current_data previous_data : CharMap) (n : String) : CharDelta :=
  let current := (getEntry current_data n).getD emptyChar
  let previous := (getEntry previous_data n).getD emptyChar
  let current_level := current.level
  let previous_level := previous.level
  let current_aa_total := current.aa_unspent + current.aa_spent
  let previous_aa_total := previous.aa_unspent + previous.aa_spent
  let current_hp := current.hp_max_total
  let previous_hp := previous.hp_max_total
  let is_deleted := charIsDeleted current_data previous_data n
  { name := n
    level_change :=
      if decide (current_level < 65) && !is_deleted then current_level - previous_level else 0
    aa_total_change := current_aa_total - previous_aa_total
    hp_change := current_hp - previous_hp
    current_level := if is_deleted then previous_level else current_level
    previous_level := previous_level
    current_aa_total := if is_deleted then previous_aa_total else current_aa_total
    previous_aa_total := previous_aa_total
    current_hp := if is_deleted then previous_hp else current_hp
    previous_hp := previous_hp
    class_name := if current.class_name ≠ "" then current.class_name else previous.class_name
    is_new := (getEntry previous_data n).isNone
    is_deleted := is_deleted }

/-- The emission test of `compare_character_data` (src/generate_spell_page.py
lines 821-827): `has_level_change or has_aa_change or is_new or is_deleted`. -/
def charEmit (current_data previous_data : CharMap) (n : String) : Bool :=
  let current_level := ((getEntry current_data n).getD emptyChar).level
  let previous_level := ((getEntry previous_data n).getD emptyChar).level
  let is_deleted := charIsDeleted current_data previous_data n
  let delta := charDeltaBody current_data previous_data n
  let has_level_change : Bool :=
    decide (delta.level_change ≠ 0) && decide (current_level < 65) && !is_deleted
  let has_aa_change : Bool :=
    decide (delta.aa_total_change ≠ 0) &&
      (if !is_deleted then decide (50 ≤ current_level) || decide (50 ≤ previous_level)
       else decide (50 ≤ previous_level))
  has_level_change || has_aa_change || delta.is_new || delta.is_deleted

/-- Body of the per-character loop of `compare_character_data`
(src/generate_spell_page.py lines 788-828, with `character_list=None`):
returns the delta entry for one name exactly when the source emits one. -/
def charDeltaFor (current_data previous_data : CharMap) (n : String) : Option CharDelta :=
  if charEmit current_data previous_data n then
    some (charDeltaBody current_data previous_data n)
  else none

/-- The serverwide delta map of `compare_character_data`
(src/generate_spell_page.py lines 782-830). -/
def compare_character_data (current_data previous_data : CharMap) :
    List (String × CharDelta) :=
  (dedupStr (keys current_data ++ keys previous_data)).filterMap
    (fun n => (charDeltaFor current_data previous_data n).map (fun d => (n, d)))

example :
    compare_character_data
      [("A", { level := 61, aa_unspent := 10, aa_spent := 5, hp_max_total := 1000,
               class_name := "WAR" })]
      [("A", { level := 60, aa_unspent := 10, aa_spent := 5, hp_max_total := 900,
               class_name := "WAR" })] =
    [("A", { name := "A", level_change := 1, aa_total_change := 0, hp_change := 100,
             current_level := 61, previous_level := 60, current_aa_total := 15,
             previous_aa_total := 15, current_hp := 1000, previous_hp := 900,
             class_name := "WAR", is_new := false, is_deleted := false })] := by
  decide

example :
    compare_character_data
      [("A", { level := 60, aa_unspent := 100, aa_spent := 0, hp_max_total := 4100,
               class_name := "WIZ" })]
      [("A", { level := 60, aa_unspent := 100, aa_spent := 0, hp_max_total := 4000,
               class_name := "WIZ" })] = [] := by
  decide

/-- One raw inventory row of `parse_inventory_file`: the two fields the
delta code reads (`item['item_id']`, `item['item_name']`). -/
structure InvItem where
  item_id : String
  item_name : String
deriving Repr, DecidableEq

abbrev InvMap := List (String × List InvItem)

/-- One entry of `inv_deltas`, as built by `compare_inventories`
(src/generate_spell_page.py lines 939-944) and `compare_delta_to_delta`
(src/delta_storage.py lines 724-729). -/
structure InvDelta where
  added : List (String × Int)
  removed : List (String × Int)
  item_names : List (String × String)
deriving Repr, DecidableEq

def emptyInvDelta : InvDelta := { added := [], removed := [], item_names := [] }

/-- Increment a per-item counter, modelling `defaultdict(int); d[k] += 1`. -/
def bump : List (String × Int) → String → List (String × Int)
  | [], k => [(k, 1)]
  | (a, c) :: t, k => if a = k then (a, c + 1) :: t else (a, c) :: bump t k

/-- Helper for `parseIntStr`: accumulate decimal digits, failing on any
non-digit character. -/
def parseDigitsAux : List Char → Nat → Option Nat
  | [], acc => some acc
  | c :: t, acc => if c.isDigit then parseDigitsAux t (acc * 10 + (c.toNat - 48)) else none

/-- Helper for `parseIntStr`: a non-empty all-digit character list. -/
def parseDigits : List Char → Option Nat
  | [] => none
  | cs => parseDigitsAux cs 0

/-- Model of Python `int(s)` on item-id strings: an optional minus sign
followed by decimal digits; anything else raises, modelled as `none`. -/
def parseIntStr (s : String) : Option Int :=
  match s.toList with
  | '-' :: rest => (parseDigits rest).map (fun n => -(n : Int))
  | l => (parseDigits l).map (fun n => (n : Int))

/-- The per-character counting loop of `compare_inventories`
(src/generate_spell_page.py lines 899-923): count each item occurrence,
skipping ids that parse to an integer in the no-rent set (`int(item_id)`
is modelled by `parseIntStr`; unparseable ids are included, as in the
source's except-branch).  The no-rent set, loaded from
`no_rent_items.json` by `load_no_rent_items`, is passed in explicitly. -/
def countStep (no_rent : List Int) (m : List (String × Int)) (it : InvItem) :
    List (String × Int) :=
  match parseIntStr it.item_id with
  | some v => if v ∈ no_rent then m else bump m it.item_id
  | none => bump m it.item_id

def countItems (no_rent : List Int) (items : List InvItem) : List (String × Int) :=
  items.foldl (countStep no_rent) []

/-- Body of the per-character loop of `compare_inventories`
(src/generate_spell_page.py lines 892-944). -/
def invDeltaFor (no_rent : List Int) (current_inv previous_inv : InvMap) (n : String) :
    Option InvDelta :=
  let current_items := countItems no_rent ((getEntry current_inv n).getD [])
  let previous_items := countItems no_rent ((getEntry previous_inv n).getD [])
  let added_items := current_items.filterMap
    (fun p =>
      let prev_count := (getEntry previous_items p.1).getD 0
      if prev_count < p.2 then some (p.1, p.2 - prev_count) else none)
  let removed_items := previous_items.filterMap
    (fun p =>
      let curr_count := (getEntry current_items p.1).getD 0
      if curr_count < p.2 then some (p.1, p.2 - curr_count) else none)
  if added_items ≠ [] ∨ removed_items ≠ [] then
    some { added := added_items, removed := removed_items, item_names := [] }
  else none

/-- The serverwide `compare_inventories` (src/generate_spell_page.py lines
876-946, with `character_list=None`; the `not in current and not in
previous` guard of line 893 is vacuous for names drawn from the key
union and is dropped). -/
def compare_inventories (no_rent : List Int) (current_inv previous_inv : InvMap) :
    List (String × InvDelta) :=
  (dedupStr (keys current_inv ++ keys previous_inv)).filterMap
    (fun n => (invDeltaFor no_rent current_inv previous_inv n).map (fun d => (n, d)))

example :
    compare_inventories [] [("Bob", [⟨"100", "Shiny"⟩, ⟨"100", "Shiny"⟩])] [("Bob", [])] =
      [("Bob", { added := [("100", 2)], removed := [], item_names := [] })] := by
  decide

example :
    compare_inventories [100] [("Bob", [⟨"100", "Shiny"⟩, ⟨"200", "Dull"⟩])] [("Bob", [])] =
      [("Bob", { added := [("200", 1)], removed := [], item_names := [] })] := by
  decide

/-- A persisted daily delta record, the JSON written by
`save_daily_delta_from_baseline` (src/delta_storage.py lines 555-562) and
read back by `load_daily_delta_json`. -/
structure DailyDelta where
  date : String
  delta_type : String
  baseline_date : String
  char_deltas : List (String × CharDelta)
  inv_deltas : List (String × InvDelta)
  timestamp : String
deriving Repr, DecidableEq

/-- The plain delta pair returned by `compare_delta_to_delta`
(src/delta_storage.py lines 731-734). -/
structure DeltaContent where
  char_deltas : List (String × CharDelta)
  inv_deltas : List (String × InvDelta)
deriving Repr, DecidableEq

/-- Body of the character loop of `compare_delta_to_delta`
(src/delta_storage.py lines 645-679).  The source reads values with
`d.get('current_level', d.get('previous_level', 0))`; entries persisted by
`compare_character_data` always carry the `current_*` keys, so the chain
collapses to the entry's `current_*` field when an entry exists and `0`
when it does not. -/
def composedCharBody (delta_a delta_b : DailyDelta) (n : String) : CharDelta :=
  let delta_a_char := getEntry delta_a.char_deltas n
  let delta_b_char := getEntry delta_b.char_deltas n
  let a_level := (delta_a_char.map (fun c => c.current_level)).getD 0
  let b_level := (delta_b_char.map (fun c => c.current_level)).getD 0
  let a_aa := (delta_a_char.map (fun c => c.current_aa_total)).getD 0
  let b_aa := (delta_b_char.map (fun c => c.current_aa_total)).getD 0
  let a_hp := (delta_a_char.map (fun c => c.current_hp)).getD 0
  let b_hp := (delta_b_char.map (fun c => c.current_hp)).getD 0
  { name := n
    level_change := b_level - a_level
    aa_total_change := b_aa - a_aa
    hp_change := b_hp - a_hp
    current_level := b_level
    previous_level := a_level
    current_aa_total := b_aa
    previous_aa_total := a_aa
    current_hp := b_hp
    previous_hp := a_hp
    class_name :=
      (let b_class := (delta_b_char.map (fun c => c.class_name)).getD ""
       if b_class ≠ "" then b_class
       else (delta_a_char.map (fun c => c.class_name)).getD "")
    is_new :=
      ((delta_b_char.map (fun c => c.is_new)).getD false) &&
        !((delta_a_char.map (fun c => c.is_new)).getD false)
    is_deleted :=
      ((delta_b_char.map (fun c => c.is_deleted)).getD false) &&
        !((delta_a_char.map (fun c => c.is_deleted)).getD false) }

def composedCharFor (delta_a delta_b : DailyDelta) (n : String) : Option CharDelta :=
  let delta_a_char := getEntry delta_a.char_deltas n
  let delta_b_char := getEntry delta_b.char_deltas n
  let a_level := (delta_a_char.map (fun c => c.current_level)).getD 0
  let b_level := (delta_b_char.map (fun c => c.current_level)).getD 0
  let a_aa := (delta_a_char.map (fun c => c.current_aa_total)).getD 0
  let b_aa := (delta_b_char.map (fun c => c.current_aa_total)).getD 0
  let a_hp := (delta_a_char.map (fun c => c.current_hp)).getD 0
  let b_hp := (delta_b_char.map (fun c => c.current_hp)).getD 0
  let level_change := b_level - a_level
  let aa_change := b_aa - a_aa
  let hp_change := b_hp - a_hp
  let b_is_new := (delta_b_char.map (fun c => c.is_new)).getD false
  let b_is_deleted := (delta_b_char.map (fun c => c.is_deleted)).getD false
  if decide (level_change ≠ 0) || decide (aa_change ≠ 0) || decide (hp_change ≠ 0) ||
      b_is_new || b_is_deleted then
    some (composedCharBody delta_a delta_b n)
  else none

/-- Accumulator threaded through the three inventory-composition passes of
`compare_delta_to_delta`: `added_items`, `removed_items`, `item_names`. -/
structure ComposeState where
  added : List (String × Int)
  removed : List (String × Int)
  names : List (String × String)
deriving Repr, DecidableEq

/-- Body of the inventory loop of `compare_delta_to_delta`
(src/delta_storage.py lines 686-729): three passes over B's added map,
B's removed map, and A's added map, in source order. -/
def composedInvFor (delta_a delta_b : DailyDelta) (n : String) : Option InvDelta :=
  let delta_a_inv := (getEntry delta_a.inv_deltas n).getD emptyInvDelta
  let delta_b_inv := (getEntry delta_b.inv_deltas n).getD emptyInvDelta
  let s1 : ComposeState :=
    delta_b_inv.added.foldl
      (fun s p =>
        let a_added := (getEntry delta_a_inv.added p.1).getD 0
        if a_added < p.2 then
          { s with
            added := setk s.added p.1 (p.2 - a_added)
            names :=
              match getEntry delta_b_inv.item_names p.1 with
              | some nm => setk s.names p.1 nm
              | none => s.names }
        else s)
      { added := [], removed := [], names := [] }
  let s2 : ComposeState :=
    delta_b_inv.removed.foldl
      (fun s p =>
        let a_removed := (getEntry delta_a_inv.removed p.1).getD 0
        if a_removed < p.2 then
          { s with
            removed := setk s.removed p.1 (p.2 - a_removed)
            names :=
              match getEntry delta_b_inv.item_names p.1 with
              | some nm => setk s.names p.1 nm
              | none => s.names }
        else s)
      s1
  let s3 : ComposeState :=
    delta_a_inv.added.foldl
      (fun s p =>
        let b_removed := (getEntry delta_b_inv.removed p.1).getD 0
        if 0 < b_removed then
          let net_change := b_removed - p.2
          { added := if net_change < 0 then setk s.added p.1 (-net_change) else s.added
            removed := if 0 < net_change then setk s.removed p.1 net_change else s.removed
            names :=
              match getEntry delta_a_inv.item_names p.1 with
              | some nm => setk s.names p.1 nm
              | none => s.names }
        else s)
      s2
  if s3.added ≠ [] ∨ s3.removed ≠ [] then
    some { added := s3.added, removed := s3.removed, item_names := s3.names }
  else none

/-- The delta-of-deltas composition `compare_delta_to_delta`
(src/delta_storage.py lines 626-734). -/
def compare_delta_to_delta (delta_a delta_b : DailyDelta) : DeltaContent :=
  { char_deltas :=
      (dedupStr (keys delta_a.char_deltas ++ keys delta_b.char_deltas)).filterMap
        (fun n => (composedCharFor delta_a delta_b n).map (fun d => (n, d)))
    inv_deltas :=
      (dedupStr (keys delta_a.inv_deltas ++ keys delta_b.inv_deltas)).filterMap
        (fun n => (composedInvFor delta_a delta_b n).map (fun d => (n, d))) }

/-- Result shape of `get_date_range_deltas` (src/delta_storage.py lines
762-784): the composed content plus the two query dates. -/
structure RangeResult where
  char_deltas : List (String × CharDelta)
  inv_deltas : List (String × InvDelta)
  start_date : String
  end_date : String
deriving Repr, DecidableEq

/-- The range query `get_date_range_deltas` (src/delta_storage.py lines
736-785).  The on-disk store of `load_daily_delta_json` is abstracted as
`store`; a missing delta raises `ValueError`, modelled as `Except.error`.
Note that when the two deltas carry different `baseline_date` values the
source only executes `pass` (lines 773-778) and still calls
`compare_delta_to_delta` on the two baseline-relative deltas. -/
def get_date_range_deltas (store : String → Option DailyDelta)
    (start_date end_date : String) : Except String RangeResult :=
  match store start_date with
  | none => .error ("Delta not found for start date: " ++ start_date)
  | some delta_start =>
    match store end_date with
    | none => .error ("Delta not found for end date: " ++ end_date)
    | some delta_end =>
      if start_date = end_date then
        .ok { char_deltas := [], inv_deltas := [], start_date := start_date,
              end_date := end_date }
      else
        let result := compare_delta_to_delta delta_start delta_end
        .ok { char_deltas := result.char_deltas, inv_deltas := result.inv_deltas,
              start_date := start_date, end_date := end_date }

/-- The master baseline record loaded by `load_master_baseline`
(src/delta_storage.py lines 432-465).  `baseline_day` is the day number
obtained by `strptime` from `baseline_date`, carried explicitly because
`should_reset_baseline` works on parsed dates. -/
structure Baseline where
  baseline_date : String
  baseline_day : Int
  characters : CharMap
  inventories : InvMap
deriving Repr, DecidableEq

/-- The quarterly reset test `should_reset_baseline` (src/delta_storage.py
lines 467-481), on parsed day numbers: `(current - baseline).days >=
reset_interval_days`. -/
def should_reset_baseline (baseline_day current_day reset_interval_days : Int) : Bool :=
  decide (reset_interval_days ≤ current_day - baseline_day)

/-- Copy item display names into one inventory delta, modelling the
population loop of src/delta_storage.py lines 543-549. -/
def populateNames (item_names : List (String × String)) (d : InvDelta) : InvDelta :=
  let names1 := d.added.foldl
    (fun acc p =>
      match getEntry item_names p.1 with
      | some nm => setk acc p.1 nm
      | none => acc)
    d.item_names
  let names2 := d.removed.foldl
    (fun acc p =>
      match getEntry item_names p.1 with
      | some nm => setk acc p.1 nm
      | none => acc)
    names1
  { d with item_names := names2 }

/-- The daily recorder `save_daily_delta_from_baseline` (src/delta_storage.py
lines 483-574).  The baseline loaded from disk is the `baseline` argument
(`none` when no `baseline_master.json(.gz)` exists); `date_day` is the
parsed day number of `date_str`; the persisted JSON record is returned as
a `DailyDelta` value, with the `datetime.now().isoformat()` field supplied
as the `timestamp` argument; Python's `raise ValueError` is
`Except.error`.  When the quarterly reset fires, the archived copy is a
side effect with no influence on the returned record, and re-loading the
just-saved baseline yields exactly the current data with the current
date. -/
def save_daily_delta_from_baseline (current_char_data : CharMap)
    (current_inv_data : InvMap) (date_str : String) (date_day : Int)
    (no_rent : List Int) (baseline : Option Baseline)
    (auto_reset_baseline : Bool) (timestamp : String) : Except String DailyDelta :=
  let baseline1 : Option Baseline :=
    match baseline with
    | some b =>
      if auto_reset_baseline && should_reset_baseline b.baseline_day date_day 90 then
        some { baseline_date := date_str, baseline_day := date_day,
               characters := current_char_data, inventories := current_inv_data }
      else some b
    | none => none
  match baseline1 with
  | none => .error "Master baseline not found. Cannot create daily delta without baseline."
  | some b =>
    let char_deltas := compare_character_data current_char_data b.characters
    let inv_deltas0 := compare_inventories no_rent current_inv_data b.inventories
    let all_item_ids : List String :=
      inv_deltas0.foldl (fun acc p => acc ++ keys p.2.added ++ keys p.2.removed) []
    let item_names : List (String × String) :=
      current_inv_data.foldl
        (fun m q =>
          q.2.foldl
            (fun m2 it =>
              if it.item_id ∈ all_item_ids then setk m2 it.item_id it.item_name else m2)
            m)
        []
    let inv_deltas := inv_deltas0.map (fun p => (p.1, populateNames item_names p.2))
    .ok { date := date_str, delta_type := "daily_from_baseline",
          baseline_date := b.baseline_date, char_deltas := char_deltas,
          inv_deltas := inv_deltas, timestamp := timestamp }

/-- A daily delta record with its run-dependent `timestamp` field blanked,
used to state what is deterministic about re-recording. -/
def stripTimestamp (d : DailyDelta) : DailyDelta := { d with timestamp := "" }

/-- One accumulated row of `accumulate_weekly_deltas` /
`accumulate_monthly_deltas` (src/delta_storage.py lines 182-187). -/
structure PeriodTotals where
  aa_gain : Int
  hp_gain : Int
  class_name : String
  level : Int
deriving Repr, DecidableEq

/-- One leaderboard entry (src/delta_storage.py lines 325-330). -/
structure LeaderboardEntry where
  name : String
  class_name : String
  level : Int
  gain : Int
deriving Repr, DecidableEq

/-- The filtering loop shared verbatim by `get_weekly_leaderboard` and
`get_monthly_leaderboard` (src/delta_storage.py lines 319-341 and
363-384): AA requires level 50+ and positive gain, HP only positive
gain, any other `stat_type` yields nothing. -/
def leaderboardEntries (totals : List (String × PeriodTotals)) (stat_type : String) :
    List LeaderboardEntry :=
  totals.filterMap
    (fun p =>
      if stat_type = "aa" then
        if 50 ≤ p.2.level ∧ 0 < p.2.aa_gain then
          some { name := p.1, class_name := p.2.class_name, level := p.2.level,
                 gain := p.2.aa_gain }
        else none
      else if stat_type = "hp" then
        if 0 < p.2.hp_gain then
          some { name := p.1, class_name := p.2.class_name, level := p.2.level,
                 gain := p.2.hp_gain }
        else none
      else none)

/-- The descending-by-gain order used by
`leaderboard.sort(key=lambda x: x['gain'], reverse=True)`. -/
def gainGE (x y : LeaderboardEntry) : Prop := y.gain ≤ x.gain

instance : DecidableRel gainGE := fun x y => Int.decLe y.gain x.gain

instance : IsTotal LeaderboardEntry gainGE := ⟨fun a b => le_total b.gain a.gain⟩

instance : IsTrans LeaderboardEntry gainGE := ⟨fun _ _ _ h1 h2 => le_trans h2 h1⟩

/-- The weekly leaderboard `get_weekly_leaderboard` (src/delta_storage.py
lines 302-344).  The file-backed `accumulate_weekly_deltas` call is
abstracted as the `totals` argument; `list.sort(key=gain, reverse=True)`
is a stable descending sort, modelled by a stable insertion sort. -/
def get_weekly_leaderboard (totals : List (String × PeriodTotals))
    (stat_type : String) (top_n : Nat) : List LeaderboardEntry :=
  (List.insertionSort gainGE (leaderboardEntries totals stat_type)).take top_n

/-- The monthly leaderboard `get_monthly_leaderboard` (src/delta_storage.py
lines 346-388), identical to the weekly one after accumulation; the
file-backed `accumulate_monthly_deltas` call is abstracted as `totals`. -/
def get_monthly_leaderboard (totals : List (String × PeriodTotals))
    (stat_type : String) (top_n : Nat) : List LeaderboardEntry :=
  (List.insertionSort gainGE (leaderboardEntries totals stat_type)).take top_n

/-! Concrete instances used to analyse the composition and range-query
behaviour.  The character maps are three observations of Alice against one
baseline; the delta records are built from the source comparison
functions themselves. -/

/-- Baseline observation: Alice at level 60, 100 AA, 4000 hp. -/
def cexChars0 : CharMap :=
  [("Alice", { level := 60, aa_unspent := 100, aa_spent := 0, hp_max_total := 4000,
               class_name := "WIZ" })]

/-- First observation: only hp changed (4000 to 4100). -/
def cexChars1 : CharMap :=
  [("Alice", { level := 60, aa_unspent := 100, aa_spent := 0, hp_max_total := 4100,
               class_name := "WIZ" })]

/-- Second observation: 40 AA gained on top of the first. -/
def cexChars2 : CharMap :=
  [("Alice", { level := 60, aa_unspent := 140, aa_spent := 0, hp_max_total := 4100,
               class_name := "WIZ" })]

/-- Day-A delta record of observation 1 against the baseline, as
`save_daily_delta_from_baseline` would persist it. -/
def cexDeltaA2 : DailyDelta :=
  { date := "2025-01-05", delta_type := "daily_from_baseline",
    baseline_date := "2025-01-01",
    char_deltas := compare_character_data cexChars1 cexChars0,
    inv_deltas := [], timestamp := "t" }

/-- Day-B delta record of observation 2 against the same baseline. -/
def cexDeltaB2 : DailyDelta :=
  { date := "2025-01-10", delta_type := "daily_from_baseline",
    baseline_date := "2025-01-01",
    char_deltas := compare_character_data cexChars2 cexChars0,
    inv_deltas := [], timestamp := "t" }

/-- Day-A delta with one copy of item 100 freshly added (Bob went from the
baseline count to one above it). -/
def cexDeltaA3 : DailyDelta :=
  { date := "2025-01-05", delta_type := "daily_from_baseline",
    baseline_date := "2025-01-01", char_deltas := [],
    inv_deltas := [("Bob", { added := [("100", 1)], removed := [], item_names := [] })],
    timestamp := "t" }

/-- Day-B delta with one copy of item 100 removed relative to the same
baseline. -/
def cexDeltaB3 : DailyDelta :=
  { date := "2025-01-10", delta_type := "daily_from_baseline",
    baseline_date := "2025-01-01", char_deltas := [],
    inv_deltas := [("Bob", { added := [], removed := [("100", 1)], item_names := [] })],
    timestamp := "t" }

/-- Day-A delta with two copies of item 100 added; its own added/removed
maps are disjoint. -/
def cexDeltaA4 : DailyDelta :=
  { date := "2025-01-05", delta_type := "daily_from_baseline",
    baseline_date := "2025-01-01", char_deltas := [],
    inv_deltas := [("Bob", { added := [("100", 2)], removed := [], item_names := [] })],
    timestamp := "t" }

/-- Day-B delta with one copy of item 100 removed; its own added/removed
maps are disjoint. -/
def cexDeltaB4 : DailyDelta :=
  { date := "2025-01-10", delta_type := "daily_from_baseline",
    baseline_date := "2025-01-01", char_deltas := [],
    inv_deltas := [("Bob", { added := [], removed := [("100", 1)], item_names := [] })],
    timestamp := "t" }

/-- Inventories for the cross-rotation range query: Bob holds no copy of
item 100 at the first baseline. -/
def cexInv0 : InvMap := [("Bob", [])]

/-- Bob holds two copies at the start date of the range query. -/
def cexInv1 : InvMap := [("Bob", [⟨"100", "Shiny"⟩, ⟨"100", "Shiny"⟩])]

/-- The rotated (second) baseline captures the same two copies. -/
def cexInv2 : InvMap := [("Bob", [⟨"100", "Shiny"⟩, ⟨"100", "Shiny"⟩])]

/-- Bob holds one copy at the end date of the range query. -/
def cexInv3 : InvMap := [("Bob", [⟨"100", "Shiny"⟩])]

/-- Start-date delta, recorded against the first baseline. -/
def cexRangeA : DailyDelta :=
  { date := "2025-01-05", delta_type := "daily_from_baseline",
    baseline_date := "2025-01-01", char_deltas := [],
    inv_deltas := compare_inventories [] cexInv1 cexInv0, timestamp := "t" }

/-- End-date delta, recorded against the rotated baseline. -/
def cexRangeB : DailyDelta :=
  { date := "2025-04-20", delta_type := "daily_from_baseline",
    baseline_date := "2025-04-01", char_deltas := [],
    inv_deltas := compare_inventories [] cexInv3 cexInv2, timestamp := "t" }

/-- The on-disk delta store holding the two range-query records. -/
def cexStore : String → Option DailyDelta := fun d =>
  if d = "2025-01-05" then some cexRangeA
  else if d = "2025-04-20" then some cexRangeB
  else none

/-- A small master baseline used to exercise the recorder. -/
def cexBaseline8 : Baseline :=
  { baseline_date := "2025-01-01", baseline_day := 0, characters := [], inventories := [] }

/-! Helper lemmas about the association-list primitives. -/

@[simp]
theorem keys_nil {α : Type} : keys ([] : List (String × α)) = [] := rfl

@[simp]
theorem keys_cons {α : Type} (p : String × α) (t : List (String × α)) :
    keys (p :: t) = p.1 :: keys t := rfl

theorem mem_dedupStr : ∀ (l : List String) (x : String), x ∈ dedupStr l ↔ x ∈ l := by
  intro l
  induction l with
  | nil => intro x; simp [dedupStr]
  | cons a t ih =>
    intro x
    simp only [dedupStr]
    by_cases h : a ∈ dedupStr t
    · have ha : a ∈ t := (ih a).mp h
      simp only [if_pos h, ih x, List.mem_cons]
      constructor
      · exact fun hx => Or.inr hx
      · rintro (rfl | hx)
        · exact ha
        · exact hx
    · simp [if_neg h, List.mem_cons, ih x]

theorem getEntry_some_mem_keys {α : Type} {m : List (String × α)} {k : String} {v : α}
    (h : getEntry m k = some v) : k ∈ keys m := by
  induction m with
  | nil => simp [getEntry] at h
  | cons p t ih =>
    obtain ⟨a, w⟩ := p
    by_cases hp : a = k
    · simp [hp]
    · simp only [getEntry, if_neg hp] at h
      simp [ih h]

theorem mem_keys_of_mem {α : Type} {m : List (String × α)} {k : String} {v : α}
    (h : (k, v) ∈ m) : k ∈ keys m :=
  List.mem_map.mpr ⟨(k, v), h, rfl⟩

theorem mem_keyed_filterMap {β : Type} {f : String → Option β} {l : List String}
    {p : String × β}
    (h : p ∈ l.filterMap (fun k => (f k).map (fun d => (k, d)))) : f p.1 = some p.2 := by
  simp only [List.mem_filterMap, Option.map_eq_some'] at h
  obtain ⟨k, -, d, hd, hp⟩ := h
  cases hp
  exact hd

theorem mem_keys_keyed_filterMap {β : Type} {f : String → Option β} {l : List String}
    {n : String} :
    n ∈ keys (l.filterMap (fun k => (f k).map (fun d => (k, d)))) ↔
      n ∈ l ∧ (f n).isSome := by
  induction l with
  | nil => simp
  | cons a t ih =>
    simp only [List.filterMap_cons]
    cases hf : f a with
    | none =>
      rw [Option.map_none']
      by_cases hn : n = a
      · subst hn
        simp [ih, hf]
      · simp [ih, List.mem_cons, hn]
    | some d =>
      rw [Option.map_some']
      by_cases hn : n = a
      · subst hn
        simp [hf]
      · simp [ih, List.mem_cons, hn]

theorem mem_keys_bump {m : List (String × Int)} {k x : String}
    (h : x ∈ keys (bump m k)) : x = k ∨ x ∈ keys m := by
  induction m with
  | nil => simpa [bump] using h
  | cons p t ih =>
    obtain ⟨a, c⟩ := p
    by_cases hak : a = k
    · simp only [bump, if_pos hak] at h
      simp only [keys_cons] at h ⊢
      exact Or.inr h
    · simp only [bump, if_neg hak, keys_cons] at h ⊢
      rcases List.mem_cons.mp h with h1 | h2
      · exact Or.inr (List.mem_cons.mpr (Or.inl h1))
      · rcases ih h2 with h3 | h4
        · exact Or.inl h3
        · exact Or.inr (List.mem_cons.mpr (Or.inr h4))

theorem nodup_keys_bump {m : List (String × Int)} {k : String}
    (h : (keys m).Nodup) : (keys (bump m k)).Nodup := by
  induction m with
  | nil => simp [bump]
  | cons p t ih =>
    obtain ⟨a, c⟩ := p
    simp only [keys_cons, List.nodup_cons] at h
    by_cases hak : a = k
    · simpa [bump, if_pos hak, hak] using h
    · simp only [bump, if_neg hak, keys_cons, List.nodup_cons]
      refine ⟨fun hx => ?_, ih h.2⟩
      rcases mem_keys_bump hx with h3 | h4
      · exact hak h3
      · exact h.1 h4

theorem getEntry_eq_of_mem {α : Type} {m : List (String × α)}
    (hnd : (keys m).Nodup) {k : String} {v : α} (h : (k, v) ∈ m) :
    getEntry m k = some v := by
  induction m with
  | nil => simp at h
  | cons p t ih =>
    obtain ⟨a, w⟩ := p
    simp only [keys_cons, List.nodup_cons] at hnd
    rcases List.mem_cons.mp h with h1 | h2
    · cases h1
      simp [getEntry]
    · by_cases hak : a = k
      · exfalso
        subst hak
        exact hnd.1 (mem_keys_of_mem h2)
      · simp only [getEntry, if_neg hak]
        exact ih hnd.2 h2

theorem nodup_keys_countStep {no_rent : List Int} {m : List (String × Int)} {it : InvItem}
    (h : (keys m).Nodup) : (keys (countStep no_rent m it)).Nodup := by
  unfold countStep
  cases parseIntStr it.item_id with
  | none => exact nodup_keys_bump h
  | some v =>
    by_cases hv : v ∈ no_rent
    · simpa [hv] using h
    · simpa [hv] using nodup_keys_bump h

theorem nodup_keys_countItems_aux {no_rent : List Int} :
    ∀ (items : List InvItem) (m : List (String × Int)), (keys m).Nodup →
      (keys (items.foldl (countStep no_rent) m)).Nodup := by
  intro items
  induction items with
  | nil => intro m h; simpa using h
  | cons it t ih =>
    intro m h
    simpa [List.foldl_cons] using ih _ (nodup_keys_countStep h)

theorem nodup_keys_countItems (no_rent : List Int) (items : List InvItem) :
    (keys (countItems no_rent items)).Nodup :=
  nodup_keys_countItems_aux items [] (by simp)

theorem not_mem_keys_countStep {no_rent : List Int} {m : List (String × Int)}
    {it : InvItem} {id : String} {v : Int}
    (hp : parseIntStr id = some v) (hv : v ∈ no_rent) (hm : id ∉ keys m) :
    id ∉ keys (countStep no_rent m it) := by
  unfold countStep
  by_cases hid : it.item_id = id
  · rw [hid, hp]
    simpa [hv] using hm
  · intro hcontra
    cases hq : parseIntStr it.item_id with
    | none =>
      rw [hq] at hcontra
      dsimp only at hcontra
      rcases mem_keys_bump hcontra with h1 | h2
      · exact hid h1.symm
      · exact hm h2
    | some w =>
      rw [hq] at hcontra
      dsimp only at hcontra
      by_cases hw : w ∈ no_rent
      · rw [if_pos hw] at hcontra
        exact hm hcontra
      · rw [if_neg hw] at hcontra
        rcases mem_keys_bump hcontra with h1 | h2
        · exact hid h1.symm
        · exact hm h2

theorem charDeltaBody_scalar_spec (current_data previous_data : CharMap) (n : String) :
    ((charDeltaBody current_data previous_data n).is_deleted = true →
        (charDeltaBody current_data previous_data n).current_level =
            (charDeltaBody current_data previous_data n).previous_level ∧
          (charDeltaBody current_data previous_data n).current_aa_total =
            (charDeltaBody current_data previous_data n).previous_aa_total ∧
          (charDeltaBody current_data previous_data n).current_hp =
            (charDeltaBody current_data previous_data n).previous_hp) ∧
      ((charDeltaBody current_data previous_data n).is_deleted = false →
        (charDeltaBody current_data previous_data n).current_aa_total =
            (charDeltaBody current_data previous_data n).previous_aa_total +
              (charDeltaBody current_data previous_data n).aa_total_change ∧
          (charDeltaBody current_data previous_data n).current_hp =
            (charDeltaBody current_data previous_data n).previous_hp +
              (charDeltaBody current_data previous_data n).hp_change ∧
          ((charDeltaBody current_data previous_data n).current_level < 65 →
            (charDeltaBody current_data previous_data n).current_level =
              (charDeltaBody current_data previous_data n).previous_level +
                (charDeltaBody current_data previous_data n).level_change)) := by
  constructor
  · intro hdel
    simp only [charDeltaBody] at hdel ⊢
    simp [hdel]
  · intro hdel
    simp only [charDeltaBody] at hdel ⊢
    simp only [hdel, Bool.not_false, Bool.and_true, decide_eq_true_eq,
      Bool.false_eq_true, if_false]
    refine ⟨by omega, by omega, fun h65 => ?_⟩
    rw [if_pos h65]
    omega

theorem charDeltaFor_eq_body {current_data previous_data : CharMap} {n : String}
    {d : CharDelta} (h : charDeltaFor current_data previous_data n = some d) :
    d = charDeltaBody current_data previous_data n := by
  unfold charDeltaFor at h
  split at h
  · exact (Option.some.inj h).symm
  · exact absurd h (by simp)

theorem charDeltaFor_scalar_spec {current_data previous_data : CharMap} {n : String}
    {d : CharDelta} (h : charDeltaFor current_data previous_data n = some d) :
    (d.is_deleted = true →
        d.current_level = d.previous_level ∧ d.current_aa_total = d.previous_aa_total ∧
          d.current_hp = d.previous_hp) ∧
      (d.is_deleted = false →
        d.current_aa_total = d.previous_aa_total + d.aa_total_change ∧
          d.current_hp = d.previous_hp + d.hp_change ∧
          (d.current_level < 65 → d.current_level = d.previous_level + d.level_change)) := by
  rw [charDeltaFor_eq_body h]
  exact charDeltaBody_scalar_spec current_data previous_data n

theorem composedCharFor_additive {delta_a delta_b : DailyDelta} {n : String}
    {d : CharDelta} (h : composedCharFor delta_a delta_b n = some d) :
    d.current_level = d.previous_level + d.level_change ∧
      d.current_aa_total = d.previous_aa_total + d.aa_total_change ∧
      d.current_hp = d.previous_hp + d.hp_change := by
  have hd : d = composedCharBody delta_a delta_b n := by
    simp only [composedCharFor] at h
    split at h
    · exact (Option.some.inj h).symm
    · exact absurd h (by simp)
  subst hd
  refine ⟨?_, ?_, ?_⟩ <;> simp only [composedCharBody] <;> omega

theorem charIsDeleted_false {current_data previous_data : CharMap} {n : String}
    {c p : CharData} (hc : getEntry current_data n = some c)
    (hp : getEntry previous_data n = some p) (hnd : ¬(c.level = 0 ∧ 0 < p.level)) :
    charIsDeleted current_data previous_data n = false := by
  simp only [charIsDeleted, hc, hp, Option.isNone_some, Bool.false_or, Option.getD_some]
  by_cases h0 : c.level = 0
  · by_cases h1 : 0 < p.level
    · exact absurd ⟨h0, h1⟩ hnd
    · simp [h1]
  · simp [h0]

theorem charEmit_iff {current_data previous_data : CharMap} {n : String} {c p : CharData}
    (hc : getEntry current_data n = some c) (hp : getEntry previous_data n = some p)
    (hnd : ¬(c.level = 0 ∧ 0 < p.level)) :
    charEmit current_data previous_data n = true ↔
      ((c.level ≠ p.level ∧ c.level < 65) ∨
        (c.aa_unspent + c.aa_spent ≠ p.aa_unspent + p.aa_spent ∧
          (50 ≤ c.level ∨ 50 ≤ p.level))) := by
  have hdel := charIsDeleted_false hc hp hnd
  simp only [charEmit, charDeltaBody, hc, hp, hdel, Option.getD_some, Option.isNone_some,
    Bool.not_false, Bool.and_true, Bool.or_false, Bool.false_eq_true, if_false, if_true,
    decide_eq_true_eq]
  by_cases h65 : c.level < 65
  · rw [if_pos h65]
    simp only [Bool.or_eq_true, Bool.and_eq_true, decide_eq_true_eq]
    omega
  · rw [if_neg h65]
    simp only [Bool.or_eq_true, Bool.and_eq_true, decide_eq_true_eq]
    omega

theorem keys_diff_spec {l other : List (String × Int)} {id : String}
    (h : id ∈ keys (l.filterMap
      (fun p =>
        let oc := (getEntry other p.1).getD 0
        if oc < p.2 then some (p.1, p.2 - oc) else none))) :
    ∃ c, (id, c) ∈ l ∧ (getEntry other id).getD 0 < c := by
  simp only [keys, List.mem_map] at h
  obtain ⟨q, hq, rfl⟩ := h
  simp only [List.mem_filterMap] at hq
  obtain ⟨p, hpl, hfp⟩ := hq
  by_cases hc : (getEntry other p.1).getD 0 < p.2
  · rw [if_pos hc] at hfp
    cases hfp
    exact ⟨p.2, by simpa using hpl, hc⟩
  · rw [if_neg hc] at hfp
    exact absurd hfp (by simp)

theorem invDeltaFor_fields {no_rent : List Int} {current_inv previous_inv : InvMap}
    {n : String} {d : InvDelta}
    (h : invDeltaFor no_rent current_inv previous_inv n = some d) :
    d.added = (countItems no_rent ((getEntry current_inv n).getD [])).filterMap
        (fun p =>
          let oc := (getEntry (countItems no_rent ((getEntry previous_inv n).getD [])) p.1).getD 0
          if oc < p.2 then some (p.1, p.2 - oc) else none) ∧
      d.removed = (countItems no_rent ((getEntry previous_inv n).getD [])).filterMap
        (fun p =>
          let oc := (getEntry (countItems no_rent ((getEntry current_inv n).getD [])) p.1).getD 0
          if oc < p.2 then some (p.1, p.2 - oc) else none) := by
  simp only [invDeltaFor] at h
  split at h
  · cases h
    exact ⟨rfl, rfl⟩
  · exact absurd h (by simp)

theorem not_mem_keys_countItems {no_rent : List Int} {id : String} {v : Int}
    (hp : parseIntStr id = some v) (hv : v ∈ no_rent) (items : List InvItem) :
    id ∉ keys (countItems no_rent items) := by
  have aux : ∀ (l : List InvItem) (m : List (String × Int)), id ∉ keys m →
      id ∉ keys (l.foldl (countStep no_rent) m) := by
    intro l
    induction l with
    | nil => intro m h; simpa using h
    | cons it t ih =>
      intro m h
      simpa [List.foldl_cons] using ih _ (not_mem_keys_countStep hp hv h)
  exact aux items [] (by simp)

theorem leaderboardEntries_mem {totals : List (String × PeriodTotals)} {stat_type : String}
    {e : LeaderboardEntry} (h : e ∈ leaderboardEntries totals stat_type) :
    0 < e.gain ∧ (stat_type = "aa" → 50 ≤ e.level) := by
  simp only [leaderboardEntries, List.mem_filterMap] at h
  obtain ⟨p, -, hf⟩ := h
  by_cases ha : stat_type = "aa"
  · rw [if_pos ha] at hf
    split_ifs at hf with hcond
    cases hf
    exact ⟨hcond.2, fun _ => hcond.1⟩
  · rw [if_neg ha] at hf
    by_cases hh : stat_type = "hp"
    · rw [if_pos hh] at hf
      split_ifs at hf with hcond
      cases hf
      exact ⟨hcond, fun hcontra => absurd hcontra ha⟩
    · rw [if_neg hh] at hf
      exact absurd hf (by simp)

theorem leaderboard_take_spec (totals : List (String × PeriodTotals)) (stat_type : String)
    (top_n : Nat) :
    (∀ e ∈ (List.insertionSort gainGE (leaderboardEntries totals stat_type)).take top_n,
        0 < e.gain ∧ (stat_type = "aa" → 50 ≤ e.level)) ∧
      ((List.insertionSort gainGE (leaderboardEntries totals stat_type)).take top_n).Pairwise
        gainGE ∧
      ((List.insertionSort gainGE (leaderboardEntries totals stat_type)).take
          top_n).length ≤ top_n := by
  refine ⟨?_, ?_, ?_⟩
  · intro e he
    exact leaderboardEntries_mem
      ((List.perm_insertionSort _ _).mem_iff.mp (List.mem_of_mem_take he))
  · exact (List.sorted_insertionSort gainGE _).sublist (List.take_sublist _ _)
  · exact List.length_take_le _ _

/-! Claim theorems. -/

/-- C9: every entry returned by `get_weekly_leaderboard` and
`get_monthly_leaderboard` has strictly positive gain; for stat type "aa"
every entry additionally has level at least 50 while "hp" imposes no
level requirement; the list is sorted descending by gain and has length
at most `top_n`. -/
theorem leaderboards_filter_sort_truncate :
    ∀ (totals : List (String × PeriodTotals)) (stat_type : String) (top_n : Nat),
      (∀ e ∈ get_weekly_leaderboard totals stat_type top_n,
          0 < e.gain ∧ (stat_type = "aa" → 50 ≤ e.level)) ∧
        (get_weekly_leaderboard totals stat_type top_n).Pairwise
          (fun x y => y.gain ≤ x.gain) ∧
        (get_weekly_leaderboard totals stat_type top_n).length ≤ top_n ∧
        (∀ e ∈ get_monthly_leaderboard totals stat_type top_n,
            0 < e.gain ∧ (stat_type = "aa" → 50 ≤ e.level)) ∧
        (get_monthly_leaderboard totals stat_type top_n).Pairwise
          (fun x y => y.gain ≤ x.gain) ∧
        (get_monthly_leaderboard totals stat_type top_n).length ≤ top_n := by
  intro totals stat_type top_n
  obtain ⟨h1, h2, h3⟩ := leaderboard_take_spec totals stat_type top_n
  exact ⟨h1, h2, h3, h1, h2, h3⟩

/-- Witness for C9 at a concrete one-row totals map. -/
theorem leaderboards_filter_sort_truncate_witness :
    0 < ({ name := "Alice", class_name := "WAR", level := 60, gain := 5 } :
        LeaderboardEntry).gain ∧
      ("aa" = "aa" → 50 ≤ ({ name := "Alice", class_name := "WAR", level := 60, gain := 5 } :
        LeaderboardEntry).level) := by
  have hm : ({ name := "Alice", class_name := "WAR", level := 60, gain := 5 } :
      LeaderboardEntry) ∈ get_weekly_leaderboard
        [("Alice", { aa_gain := 5, hp_gain := 0, class_name := "WAR", level := 60 })]
        "aa" 20 := by decide
  exact (leaderboards_filter_sort_truncate
    [("Alice", { aa_gain := 5, hp_gain := 0, class_name := "WAR", level := 60 })]
    "aa" 20).1 _ hm

/-- C10: an item whose id parses to an integer in the configured no-rent
set is excluded from counting by `compare_inventories`, so it never
appears in the added or removed map of any emitted inventory delta. -/
theorem no_rent_items_never_in_delta :
    ∀ (no_rent : List Int) (current_inv previous_inv : InvMap) (q : String × InvDelta),
      q ∈ compare_inventories no_rent current_inv previous_inv →
      ∀ (id : String) (v : Int), parseIntStr id = some v → v ∈ no_rent →
        id ∉ keys q.2.added ∧ id ∉ keys q.2.removed := by
  intro no_rent current_inv previous_inv q hq id v hpv hv
  have hf := mem_keyed_filterMap hq
  obtain ⟨hadd, hrem⟩ := invDeltaFor_fields hf
  constructor
  · intro hcontra
    rw [hadd] at hcontra
    obtain ⟨c, hc, -⟩ := keys_diff_spec hcontra
    exact not_mem_keys_countItems hpv hv _ (mem_keys_of_mem hc)
  · intro hcontra
    rw [hrem] at hcontra
    obtain ⟨c, hc, -⟩ := keys_diff_spec hcontra
    exact not_mem_keys_countItems hpv hv _ (mem_keys_of_mem hc)

/-- Witness for C10: item 100 is on the no-rent list and parses to 100,
so it is absent from the emitted delta for Bob. -/
theorem no_rent_items_never_in_delta_witness :
    "100" ∉ keys ({ added := [("200", 1)], removed := [], item_names := [] } :
        InvDelta).added ∧
      "100" ∉ keys ({ added := [("200", 1)], removed := [], item_names := [] } :
        InvDelta).removed :=
  no_rent_items_never_in_delta [100]
    [("Bob", [⟨"100", "Shiny"⟩, ⟨"200", "Dull"⟩])] [("Bob", [])]
    ("Bob", { added := [("200", 1)], removed := [], item_names := [] })
    (by decide) "100" 100 (by decide) (by decide)

/-- C4 counterexample: both `cexDeltaA4` and `cexDeltaB4` keep their own
added/removed maps disjoint, yet `compare_delta_to_delta` emits item 100
in both maps of Bob's composed delta (the B-removed pass emits 1 and the
A-added-versus-B-removed pass emits the negative net as an addition). -/
theorem compose_mutual_exclusion_cex :
    (((getEntry cexDeltaA4.inv_deltas "Bob").getD emptyInvDelta).removed = [] ∧
        ((getEntry cexDeltaB4.inv_deltas "Bob").getD emptyInvDelta).added = []) ∧
      "100" ∈ keys ((getEntry (compare_delta_to_delta cexDeltaA4 cexDeltaB4).inv_deltas
          "Bob").getD emptyInvDelta).added ∧
      "100" ∈ keys ((getEntry (compare_delta_to_delta cexDeltaA4 cexDeltaB4).inv_deltas
          "Bob").getD emptyInvDelta).removed := by
  decide

/-- C4 amended: mutual exclusion does hold for every InventoryDelta
produced by the direct diff `compare_inventories`; the composition
`compare_delta_to_delta` does not guarantee it even on invariant-satisfying
inputs. -/
theorem compare_inventories_mutual_exclusion :
    ∀ (no_rent : List Int) (current_inv previous_inv : InvMap) (q : String × InvDelta),
      q ∈ compare_inventories no_rent current_inv previous_inv →
      ∀ id : String, id ∈ keys q.2.added → id ∉ keys q.2.removed := by
  intro no_rent current_inv previous_inv q hq id hin hout
  have hf := mem_keyed_filterMap hq
  obtain ⟨hadd, hrem⟩ := invDeltaFor_fields hf
  rw [hadd] at hin
  rw [hrem] at hout
  obtain ⟨c, hc, hcc⟩ := keys_diff_spec hin
  obtain ⟨r, hr, hrr⟩ := keys_diff_spec hout
  have hce := getEntry_eq_of_mem (nodup_keys_countItems no_rent _) hc
  have hre := getEntry_eq_of_mem (nodup_keys_countItems no_rent _) hr
  rw [hce] at hrr
  rw [hre] at hcc
  simp only [Option.getD_some] at hrr hcc
  omega

/-- Witness for the C4 amended theorem at a concrete diff. -/
theorem compare_inventories_mutual_exclusion_witness :
    "100" ∉ keys ({ added := [("100", 1)], removed := [], item_names := [] } :
        InvDelta).removed :=
  compare_inventories_mutual_exclusion [] [("Bob", [⟨"100", "Shiny"⟩])] [("Bob", [])]
    ("Bob", { added := [("100", 1)], removed := [], item_names := [] })
    (by decide) "100" (by decide)

/-- C3 counterexample: with A recording `added:{100:1}` and B recording
`removed:{100:1}` against the same baseline, the composed delta is not
empty for item 100 — it reports `removed:{100:1}`. -/
theorem compose_add_remove_cex :
    (compare_delta_to_delta cexDeltaA3 cexDeltaB3).inv_deltas =
      [("Bob", { added := [], removed := [("100", 1)], item_names := [] })] := by
  decide

/-- C3 amended: for an entity whose delta A records `added:{item:k}` and
whose delta B records `removed:{item:k}` (same baseline), the composition
emits `removed:{item:k}` for that item — the B-removed pass emits
`bRem - aRem = k` and the netting pass computes `net = 0` and leaves it —
rather than omitting the item. -/
theorem compose_add_remove_nets_to_removed :
    ∀ (delta_a delta_b : DailyDelta) (ch item : String) (k : Int), 0 < k →
      delta_a.inv_deltas = [(ch, { added := [(item, k)], removed := [], item_names := [] })] →
      delta_b.inv_deltas = [(ch, { added := [], removed := [(item, k)], item_names := [] })] →
      (compare_delta_to_delta delta_a delta_b).inv_deltas =
        [(ch, { added := [], removed := [(item, k)], item_names := [] })] := by
  intro delta_a delta_b ch item k hk ha hb
  simp [compare_delta_to_delta, composedInvFor, dedupStr, keys, getEntry, setk,
    emptyInvDelta, ha, hb, hk, sub_self]

/-- Witness for the C3 amended theorem at the concrete day-5/day-10 pair. -/
theorem compose_add_remove_nets_to_removed_witness :
    (compare_delta_to_delta cexDeltaA3 cexDeltaB3).inv_deltas =
      [("Bob", { added := [], removed := [("100", 1)], item_names := [] })] :=
  compose_add_remove_nets_to_removed cexDeltaA3 cexDeltaB3 "Bob" "100" 1
    (by decide) rfl rfl

/-- C5 counterexample: Alice reaches the level cap (64 to 65) while also
gaining AA; the emitted entry has `level_change = 0` (the source zeroes
level changes at level 65), so `current_level = previous_level +
level_change` fails on a non-deleted entry. -/
theorem char_delta_additive_cex :
    compare_character_data
        [("Alice", { level := 65, aa_unspent := 140, aa_spent := 0, hp_max_total := 4000,
                     class_name := "WIZ" })]
        [("Alice", { level := 64, aa_unspent := 100, aa_spent := 0, hp_max_total := 4000,
                     class_name := "WIZ" })] =
      [("Alice", { name := "Alice", level_change := 0, aa_total_change := 40,
                   hp_change := 0, current_level := 65, previous_level := 64,
                   current_aa_total := 140, previous_aa_total := 100,
                   current_hp := 4000, previous_hp := 4000, class_name := "WIZ",
                   is_new := false, is_deleted := false })] ∧
      ({ name := "Alice", level_change := 0, aa_total_change := 40, hp_change := 0,
         current_level := 65, previous_level := 64, current_aa_total := 140,
         previous_aa_total := 100, current_hp := 4000, previous_hp := 4000,
         class_name := "WIZ", is_new := false, is_deleted := false } :
        CharDelta).is_deleted = false ∧
      ({ name := "Alice", level_change := 0, aa_total_change := 40, hp_change := 0,
         current_level := 65, previous_level := 64, current_aa_total := 140,
         previous_aa_total := 100, current_hp := 4000, previous_hp := 4000,
         class_name := "WIZ", is_new := false, is_deleted := false } :
        CharDelta).current_level ≠
        ({ name := "Alice", level_change := 0, aa_total_change := 40, hp_change := 0,
           current_level := 65, previous_level := 64, current_aa_total := 140,
           previous_aa_total := 100, current_hp := 4000, previous_hp := 4000,
           class_name := "WIZ", is_new := false, is_deleted := false } :
          CharDelta).previous_level +
          ({ name := "Alice", level_change := 0, aa_total_change := 40, hp_change := 0,
             current_level := 65, previous_level := 64, current_aa_total := 140,
             previous_aa_total := 100, current_hp := 4000, previous_hp := 4000,
             class_name := "WIZ", is_new := false, is_deleted := false } :
            CharDelta).level_change := by
  decide

/-- C5 amended: in `compare_delta_to_delta` entries the three additive
equations always hold; in `compare_character_data` entries, deleted
entries mirror the previous values, and non-deleted entries satisfy the
AA and hp equations always and the level equation whenever the current
level is below the 65 cap (at the cap `level_change` is zeroed). -/
theorem char_delta_scalar_invariants :
    (∀ (current_data previous_data : CharMap) (q : String × CharDelta),
        q ∈ compare_character_data current_data previous_data →
        (q.2.is_deleted = true →
            q.2.current_level = q.2.previous_level ∧
              q.2.current_aa_total = q.2.previous_aa_total ∧
              q.2.current_hp = q.2.previous_hp) ∧
          (q.2.is_deleted = false →
            q.2.current_aa_total = q.2.previous_aa_total + q.2.aa_total_change ∧
              q.2.current_hp = q.2.previous_hp + q.2.hp_change ∧
              (q.2.current_level < 65 →
                q.2.current_level = q.2.previous_level + q.2.level_change))) ∧
      (∀ (delta_a delta_b : DailyDelta) (q : String × CharDelta),
          q ∈ (compare_delta_to_delta delta_a delta_b).char_deltas →
          q.2.current_level = q.2.previous_level + q.2.level_change ∧
            q.2.current_aa_total = q.2.previous_aa_total + q.2.aa_total_change ∧
            q.2.current_hp = q.2.previous_hp + q.2.hp_change) := by
  constructor
  · intro current_data previous_data q hq
    unfold compare_character_data at hq
    exact charDeltaFor_scalar_spec (mem_keyed_filterMap hq)
  · intro delta_a delta_b q hq
    exact composedCharFor_additive
      (mem_keyed_filterMap (by simpa [compare_delta_to_delta] using hq))

/-- Witness for the C5 amended theorem at a concrete level-up with hp
gain. -/
theorem char_delta_scalar_invariants_witness :
    (({ name := "A", level_change := 1, aa_total_change := 0, hp_change := 100,
        current_level := 61, previous_level := 60, current_aa_total := 15,
        previous_aa_total := 15, current_hp := 1000, previous_hp := 900,
        class_name := "WAR", is_new := false, is_deleted := false } :
          CharDelta).is_deleted = true →
        ({ name := "A", level_change := 1, aa_total_change := 0, hp_change := 100,
           current_level := 61, previous_level := 60, current_aa_total := 15,
           previous_aa_total := 15, current_hp := 1000, previous_hp := 900,
           class_name := "WAR", is_new := false, is_deleted := false } :
          CharDelta).current_level =
            ({ name := "A", level_change := 1, aa_total_change := 0, hp_change := 100,
               current_level := 61, previous_level := 60, current_aa_total := 15,
               previous_aa_total := 15, current_hp := 1000, previous_hp := 900,
               class_name := "WAR", is_new := false, is_deleted := false } :
              CharDelta).previous_level ∧
          ({ name := "A", level_change := 1, aa_total_change := 0, hp_change := 100,
             current_level := 61, previous_level := 60, current_aa_total := 15,
             previous_aa_total := 15, current_hp := 1000, previous_hp := 900,
             class_name := "WAR", is_new := false, is_deleted := false } :
            CharDelta).current_aa_total =
            ({ name := "A", level_change := 1, aa_total_change := 0, hp_change := 100,
               current_level := 61, previous_level := 60, current_aa_total := 15,
               previous_aa_total := 15, current_hp := 1000, previous_hp := 900,
               class_name := "WAR", is_new := false, is_deleted := false } :
              CharDelta).previous_aa_total ∧
          ({ name := "A", level_change := 1, aa_total_change := 0, hp_change := 100,
             current_level := 61, previous_level := 60, current_aa_total := 15,
             previous_aa_total := 15, current_hp := 1000, previous_hp := 900,
             class_name := "WAR", is_new := false, is_deleted := false } :
            CharDelta).current_hp =
            ({ name := "A", level_change := 1, aa_total_change := 0, hp_change := 100,
               current_level := 61, previous_level := 60, current_aa_total := 15,
               previous_aa_total := 15, current_hp := 1000, previous_hp := 900,
               class_name := "WAR", is_new := false, is_deleted := false } :
              CharDelta).previous_hp) ∧
      (({ name := "A", level_change := 1, aa_total_change := 0, hp_change := 100,
          current_level := 61, previous_level := 60, current_aa_total := 15,
          previous_aa_total := 15, current_hp := 1000, previous_hp := 900,
          class_name := "WAR", is_new := false, is_deleted := false } :
            CharDelta).is_deleted = false →
        ({ name := "A", level_change := 1, aa_total_change := 0, hp_change := 100,
           current_level := 61, previous_level := 60, current_aa_total := 15,
           previous_aa_total := 15, current_hp := 1000, previous_hp := 900,
           class_name := "WAR", is_new := false, is_deleted := false } :
          CharDelta).current_aa_total =
            ({ name := "A", level_change := 1, aa_total_change := 0, hp_change := 100,
               current_level := 61, previous_level := 60, current_aa_total := 15,
               previous_aa_total := 15, current_hp := 1000, previous_hp := 900,
               class_name := "WAR", is_new := false, is_deleted := false } :
              CharDelta).previous_aa_total +
              ({ name := "A", level_change := 1, aa_total_change := 0, hp_change := 100,
                 current_level := 61, previous_level := 60, current_aa_total := 15,
                 previous_aa_total := 15, current_hp := 1000, previous_hp := 900,
                 class_name := "WAR", is_new := false, is_deleted := false } :
                CharDelta).aa_total_change ∧
          ({ name := "A", level_change := 1, aa_total_change := 0, hp_change := 100,
             current_level := 61, previous_level := 60, current_aa_total := 15,
             previous_aa_total := 15, current_hp := 1000, previous_hp := 900,
             class_name := "WAR", is_new := false, is_deleted := false } :
            CharDelta).current_hp =
            ({ name := "A", level_change := 1, aa_total_change := 0, hp_change := 100,
               current_level := 61, previous_level := 60, current_aa_total := 15,
               previous_aa_total := 15, current_hp := 1000, previous_hp := 900,
               class_name := "WAR", is_new := false, is_deleted := false } :
              CharDelta).previous_hp +
              ({ name := "A", level_change := 1, aa_total_change := 0, hp_change := 100,
                 current_level := 61, previous_level := 60, current_aa_total := 15,
                 previous_aa_total := 15, current_hp := 1000, previous_hp := 900,
                 class_name := "WAR", is_new := false, is_deleted := false } :
                CharDelta).hp_change ∧
          (({ name := "A", level_change := 1, aa_total_change := 0, hp_change := 100,
              current_level := 61, previous_level := 60, current_aa_total := 15,
              previous_aa_total := 15, current_hp := 1000, previous_hp := 900,
              class_name := "WAR", is_new := false, is_deleted := false } :
              CharDelta).current_level < 65 →
            ({ name := "A", level_change := 1, aa_total_change := 0, hp_change := 100,
               current_level := 61, previous_level := 60, current_aa_total := 15,
               previous_aa_total := 15, current_hp := 1000, previous_hp := 900,
               class_name := "WAR", is_new := false, is_deleted := false } :
              CharDelta).current_level =
              ({ name := "A", level_change := 1, aa_total_change := 0, hp_change := 100,
                 current_level := 61, previous_level := 60, current_aa_total := 15,
                 previous_aa_total := 15, current_hp := 1000, previous_hp := 900,
                 class_name := "WAR", is_new := false, is_deleted := false } :
                CharDelta).previous_level +
                ({ name := "A", level_change := 1, aa_total_change := 0, hp_change := 100,
                   current_level := 61, previous_level := 60, current_aa_total := 15,
                   previous_aa_total := 15, current_hp := 1000, previous_hp := 900,
                   class_name := "WAR", is_new := false, is_deleted := false } :
                  CharDelta).level_change)) :=
  char_delta_scalar_invariants.1
    [("A", { level := 61, aa_unspent := 10, aa_spent := 5, hp_max_total := 1000,
             class_name := "WAR" })]
    [("A", { level := 60, aa_unspent := 10, aa_spent := 5, hp_max_total := 900,
             class_name := "WAR" })]
    ("A", { name := "A", level_change := 1, aa_total_change := 0, hp_change := 100,
            current_level := 61, previous_level := 60, current_aa_total := 15,
            previous_aa_total := 15, current_hp := 1000, previous_hp := 900,
            class_name := "WAR", is_new := false, is_deleted := false })
    (by decide)

/-- C6 counterexample: Alice is present in both maps, not deleted, and her
hp differs (4000 to 4100) while level and AA are unchanged — yet
`compare_character_data` emits no entry: an hp-only change is not an
emission trigger in the source. -/
theorem emission_hp_only_cex :
    compare_character_data
        [("Alice", { level := 60, aa_unspent := 100, aa_spent := 0, hp_max_total := 4100,
                     class_name := "WIZ" })]
        [("Alice", { level := 60, aa_unspent := 100, aa_spent := 0, hp_max_total := 4000,
                     class_name := "WIZ" })] = [] ∧
      ({ level := 60, aa_unspent := 100, aa_spent := 0, hp_max_total := 4100,
         class_name := "WIZ" } : CharData).hp_max_total ≠
        ({ level := 60, aa_unspent := 100, aa_spent := 0, hp_max_total := 4000,
           class_name := "WIZ" } : CharData).hp_max_total := by
  decide

/-- C6 amended: for an entity present in both maps and not flagged
deleted, `compare_character_data` emits an entry if and only if the level
differs with the current level below 65, or the AA total differs with one
of the two levels at least 50.  An hp-only change emits nothing; an AA
change alone at the level cap does emit (65 is at least 50). -/
theorem compare_character_data_emission_iff :
    ∀ (current_data previous_data : CharMap) (n : String) (c p : CharData),
      getEntry current_data n = some c → getEntry previous_data n = some p →
      ¬(c.level = 0 ∧ 0 < p.level) →
      (n ∈ keys (compare_character_data current_data previous_data) ↔
        ((c.level ≠ p.level ∧ c.level < 65) ∨
          (c.aa_unspent + c.aa_spent ≠ p.aa_unspent + p.aa_spent ∧
            (50 ≤ c.level ∨ 50 ≤ p.level)))) := by
  intro current_data previous_data n c p hc hp hnd
  unfold compare_character_data
  rw [mem_keys_keyed_filterMap]
  have hiff : ((charDeltaFor current_data previous_data n).isSome = true) ↔
      charEmit current_data previous_data n = true := by
    unfold charDeltaFor
    split
    · simp [*]
    · simp [*]
  constructor
  · rintro ⟨-, hs⟩
    exact (charEmit_iff hc hp hnd).mp (hiff.mp hs)
  · intro hr
    refine ⟨(mem_dedupStr _ n).mpr ?_, hiff.mpr ((charEmit_iff hc hp hnd).mpr hr)⟩
    exact List.mem_append.mpr (Or.inl (getEntry_some_mem_keys hc))

/-- Witness for the C6 amended theorem at a level-up observation. -/
theorem compare_character_data_emission_iff_witness :
    ("A" ∈ keys (compare_character_data
        [("A", { level := 61, aa_unspent := 10, aa_spent := 5, hp_max_total := 1000,
                 class_name := "WAR" })]
        [("A", { level := 60, aa_unspent := 10, aa_spent := 5, hp_max_total := 900,
                 class_name := "WAR" })]) ↔
      (((61 : Int) ≠ 60 ∧ (61 : Int) < 65) ∨
        ((10 : Int) + 5 ≠ (10 : Int) + 5 ∧ ((50 : Int) ≤ 61 ∨ (50 : Int) ≤ 60)))) :=
  compare_character_data_emission_iff
    [("A", { level := 61, aa_unspent := 10, aa_spent := 5, hp_max_total := 1000,
             class_name := "WAR" })]
    [("A", { level := 60, aa_unspent := 10, aa_spent := 5, hp_max_total := 900,
             class_name := "WAR" })]
    "A"
    { level := 61, aa_unspent := 10, aa_spent := 5, hp_max_total := 1000,
      class_name := "WAR" }
    { level := 60, aa_unspent := 10, aa_spent := 5, hp_max_total := 900,
      class_name := "WAR" }
    (by decide) (by decide) (by decide)

/-- C1: the two stored deltas reference different baselines (a rotation
occurred), yet `get_date_range_deltas` does not reconstruct the full
states — it composes the two baseline-relative deltas directly and
returns `added:{100:1}, removed:{100:1}` for Bob, while the direct diff of
the two underlying inventory states (`compare_inventories` of the end
state against the start state) is `removed:{100:1}` only. -/
theorem get_date_range_deltas_cross_baseline_eval :
    cexRangeA.baseline_date ≠ cexRangeB.baseline_date ∧
      (get_date_range_deltas cexStore "2025-01-05" "2025-04-20").map
          (fun r => (getEntry r.inv_deltas "Bob").map (fun d => (d.added, d.removed))) =
        .ok (some ([("100", 1)], [("100", 1)])) ∧
      (getEntry (compare_inventories [] cexInv3 cexInv1) "Bob").map
          (fun d => (d.added, d.removed)) = some ([], [("100", 1)]) ∧
      (get_date_range_deltas cexStore "2025-01-05" "2025-04-20").map
          (fun r => (getEntry r.inv_deltas "Bob").map (fun d => (d.added, d.removed))) ≠
        .ok ((getEntry (compare_inventories [] cexInv3 cexInv1) "Bob").map
          (fun d => (d.added, d.removed))) := by
  refine ⟨by decide, by decide, by decide, by decide⟩

/-- C2: with S0 the baseline, S1 an hp-only change (which produces no
delta entry) and S2 a 40-AA gain, composing the two baseline-relative
deltas reports `aa_total_change = 140` for Alice (the absent day-A entry
defaults to 0), while the direct diff `compare_character_data S2 S1`
reports 40 — composition does not equal the direct diff. -/
theorem compare_delta_to_delta_compose_eval :
    cexDeltaA2.baseline_date = cexDeltaB2.baseline_date ∧
      ((getEntry (compare_delta_to_delta cexDeltaA2 cexDeltaB2).char_deltas "Alice").map
          (fun d => d.aa_total_change)) = some 140 ∧
      ((getEntry (compare_character_data cexChars2 cexChars1) "Alice").map
          (fun d => d.aa_total_change)) = some 40 ∧
      ((getEntry (compare_delta_to_delta cexDeltaA2 cexDeltaB2).char_deltas "Alice").map
          (fun d => d.aa_total_change)) ≠
        ((getEntry (compare_character_data cexChars2 cexChars1) "Alice").map
          (fun d => d.aa_total_change)) := by
  decide

/-- C7 counterexample: with no master baseline on disk the recorder does
not install the current state and return an empty delta — it fails with
`ValueError("Master baseline not found. ...")`. -/
theorem save_daily_no_baseline_cex :
    save_daily_delta_from_baseline [] [] "2025-01-02" 1 [] none true "t" =
        .error "Master baseline not found. Cannot create daily delta without baseline." ∧
      (save_daily_delta_from_baseline [] [] "2025-01-02" 1 [] none true "t").isOk = false := by
  decide

/-- C7 amended: for every input, `save_daily_delta_from_baseline` with no
master baseline raises `ValueError` rather than self-healing; the
baseline-creation fallback lives in the callers, not in this function. -/
theorem save_daily_no_baseline_errors :
    ∀ (current_char_data : CharMap) (current_inv_data : InvMap) (date_str : String)
      (date_day : Int) (no_rent : List Int) (auto_reset_baseline : Bool)
      (timestamp : String),
      save_daily_delta_from_baseline current_char_data current_inv_data date_str date_day
          no_rent none auto_reset_baseline timestamp =
        .error "Master baseline not found. Cannot create daily delta without baseline." := by
  intro current_char_data current_inv_data date_str date_day no_rent auto_reset_baseline
    timestamp
  rfl

/-- C8 counterexample: two runs over identical inputs and baseline produce
different persisted records, because the record embeds
`datetime.now().isoformat()` as its `timestamp` field. -/
theorem save_daily_timestamp_cex :
    save_daily_delta_from_baseline [] [] "2025-01-02" 1 [] (some cexBaseline8) true "t1" ≠
      save_daily_delta_from_baseline [] [] "2025-01-02" 1 [] (some cexBaseline8) true "t2" := by
  decide

/-- C8 amended: apart from the run-dependent `timestamp` field, the
persisted daily delta record is a deterministic function of the inputs
and the stored baseline — two invocations with the same data agree on
every other field. -/
theorem save_daily_deterministic_up_to_timestamp :
    ∀ (current_char_data : CharMap) (current_inv_data : InvMap) (date_str : String)
      (date_day : Int) (no_rent : List Int) (baseline : Option Baseline)
      (auto_reset_baseline : Bool) (t1 t2 : String),
      (save_daily_delta_from_baseline current_char_data current_inv_data date_str date_day
          no_rent baseline auto_reset_baseline t1).map stripTimestamp =
        (save_daily_delta_from_baseline current_char_data current_inv_data date_str date_day
          no_rent baseline auto_reset_baseline t2).map stripTimestamp := by
  intro current_char_data current_inv_data date_str date_day no_rent baseline
    auto_reset_baseline t1 t2
  cases baseline with
  | none => rfl
  | some b =>
    unfold save_daily_delta_from_baseline
    dsimp only
    split <;> rfl
